import Mathlib

/-!
Verification of the worktree/review orchestrator
(`server/src/routes/worktree.rs`) of the Beads-Kanban-UI repository.

The Rust handlers are shallowly embedded as pure Lean functions.  Side
effects are made explicit:

* the filesystem is a small `FsState` (set of existing directories plus
  the content of the repository's `.gitignore`);
* every subprocess call is an input: its outcome (`ProcOutcome`) is
  supplied by an environment record, and each embedded handler returns,
  besides its result, the list of subprocess/lookup actions it performed
  (`Act`), so "no subprocess is invoked" is a provable statement;
* Rust `i32`/`i64` counters are modeled as `Nat`/`Int` (no claim here
  involves overflow);
* `serde_json` parsing of the `gh pr list` output is abstracted as a
  parse function supplied in the environment.
-/

namespace BeadsKanban

/-! ## String helpers (models of the Rust `str` operations used) -/

/-- Model of Rust `str::starts_with` on characters. -/
def strStartsWith (s pre : String) : Bool :=
  pre.toList.isPrefixOf s.toList

/-- Contiguous-sublist test, model of Rust `str::contains` at the
character level. -/
def containsSubList (pat : List Char) : List Char → Bool
  | [] => pat.isEmpty
  | c :: rest => pat.isPrefixOf (c :: rest) || containsSubList pat rest

/-- Model of Rust `str::contains` (substring containment). -/
def strContains (s pat : String) : Bool :=
  containsSubList pat.toList s.toList

/-- Model of Rust `str::trim`: drop whitespace from both ends. -/
def strTrim (s : String) : String :=
  String.mk (((s.toList.dropWhile Char.isWhitespace).reverse.dropWhile
    Char.isWhitespace).reverse)

/-- Fuel-indexed worker for `trimLeading`; each successful strip removes
at least one character, so fuel `s.length` suffices. -/
def trimLeadingAux (pat : List Char) : Nat → List Char → List Char
  | 0, s => s
  | fuel + 1, s =>
    if !pat.isEmpty && pat.isPrefixOf s then
      trimLeadingAux pat fuel (s.drop pat.length)
    else s

/-- Model of Rust `str::trim_start_matches`: repeatedly strips the
pattern from the front while it is a prefix. -/
def trimLeading (pat s : List Char) : List Char :=
  trimLeadingAux pat s.length s

/-- `extract_bead_id` from `worktree.rs`: branch names of the shape
`bd-…` yield the remainder after stripping every leading `bd-`
(Rust `trim_start_matches` removes all successive occurrences). -/
def extract_bead_id (branch : String) : Option String :=
  if strStartsWith branch "bd-" then
    some (String.mk (trimLeading "bd-".toList branch.toList))
  else
    none

/-! ## Checks aggregation (`parse_status_checks`) -/

/-- One entry of the `statusCheckRollup` array: the `status` and
`conclusion` strings (`as_str().unwrap_or("")` in the source makes both
total strings). -/
structure CheckEntry where
  status : String
  conclusion : String
deriving DecidableEq, Repr

/-- `ChecksStatus` from `worktree.rs` (counters are `i32` in the source;
modeled as `Nat`). -/
structure ChecksStatus where
  total : Nat
  passed : Nat
  failed : Nat
  pending : Nat
  status : String
deriving DecidableEq, Repr

/-- The per-entry counter update of `parse_status_checks`
(accumulator is `(total, passed, failed, pending)`). -/
def checkStep (acc : Nat × Nat × Nat × Nat) (check : CheckEntry) :
    Nat × Nat × Nat × Nat :=
  let (total, passed, failed, pending) := acc
  match check.status with
  | "QUEUED" | "IN_PROGRESS" => (total + 1, passed, failed, pending + 1)
  | "COMPLETED" =>
    match check.conclusion with
    | "SUCCESS" => (total + 1, passed + 1, failed, pending)
    | "FAILURE" | "CANCELLED" | "TIMED_OUT" | "ACTION_REQUIRED" =>
      (total + 1, passed, failed + 1, pending)
    | _ => (total + 1, passed, failed, pending + 1)
  | _ =>
    match check.conclusion with
    | "SUCCESS" => (total + 1, passed + 1, failed, pending)
    | "FAILURE" | "ERROR" => (total + 1, passed, failed + 1, pending)
    | _ => (total + 1, passed, failed, pending + 1)

/-- `parse_status_checks` from `worktree.rs`, on the rollup array
(a non-array rollup in the source leaves all counters at zero, i.e.
behaves like the empty list). -/
def parse_status_checks (checks : List CheckEntry) : ChecksStatus :=
  let (total, passed, failed, pending) := checks.foldl checkStep (0, 0, 0, 0)
  let status :=
    if total == 0 then "success"
    else if failed > 0 then "failure"
    else if pending > 0 then "pending"
    else "success"
  ⟨total, passed, failed, pending, status⟩

/-! ## Subprocess and effect model -/

/-- Outcome of one `tokio::process::Command::output().await` call:
either the spawn itself failed (`err`, the Rust `Err(e)` branch), or the
process ran and exited (`exited success stdout stderr`, the Rust
`Ok(output)` branch, with `success = output.status.success()`). -/
inductive ProcOutcome where
  | err (msg : String)
  | exited (success : Bool) (stdout stderr : String)
deriving DecidableEq, Repr

/-- Whether the spawn itself failed (`Err(_)` in Rust). -/
def ProcOutcome.isErr : ProcOutcome → Bool
  | .err _ => true
  | .exited _ _ _ => false

/-- Observable actions performed by the embedded handlers: one
constructor per subprocess call site, plus the bead-status file lookup
(which is a file read, recorded so that "no sibling's status is looked
up" is expressible). -/
inductive Act where
  | gitWorktreeAdd
  | gitWorktreeAddRetry
  | gitWorktreeRemove
  | gitWorktreeRemoveForce
  | gitBranchDelete
  | bdClose
  | ghPrList
  | ghPrCreate
  | gitWorktreeList
  | gitFetchRoot
  | lookupStatus (bead_id : String)
  | gitFetchSibling (path : String)
  | gitRebase (path : String)
  | gitRebaseAbort (path : String)
  | gitPush (path : String)
deriving DecidableEq, Repr

/-! ## Filesystem state -/

/-- The slice of filesystem state the handlers read and write: the set
of existing directories (`dirs`, also used for `repo_path.exists()`)
and the content of `{repo_path}/.gitignore` (the empty string models a
missing file, matching `read_to_string(..).unwrap_or_default()`). -/
structure FsState where
  dirs : List String
  gitignore : String
deriving DecidableEq, Repr

/-- Deterministic worktree path: `repo_root/.worktrees/bd-{task_id}`
(`Path::join` modeled as `/`-separated concatenation). -/
def worktreePath (repo_path bead_id : String) : String :=
  repo_path ++ "/.worktrees/bd-" ++ bead_id

/-- The `.worktrees` parent directory inside the repository. -/
def worktreesDir (repo_path : String) : String :=
  repo_path ++ "/.worktrees"

/-- `ensure_gitignore_entry` from `worktree.rs`, as a pure function on
the `.gitignore` content (the success path of the file write; a write
failure is only logged by the caller and changes nothing observable to
the claims below). -/
def ensure_gitignore_entry (content : String) : String :=
  if !strContains content ".worktrees/" && !strContains content ".worktrees" then
    content ++ "\n# Git worktrees\n.worktrees/\n"
  else content

/-! ## `create_worktree` -/

/-- `CreateWorktreeResponse` from `worktree.rs`. -/
structure CreateWorktreeResponse where
  success : Bool
  worktree_path : String
  branch : String
  already_existed : Bool
deriving DecidableEq, Repr

/-- Result of the `create_worktree` handler, tagged by HTTP status
class. -/
inductive CreateResult where
  | badRequest (msg : String)
  | serverError (msg : String)
  | ok (resp : CreateWorktreeResponse)
deriving DecidableEq, Repr

/-- Environment for `create_worktree`: whether `fs::create_dir_all`
succeeds, and the outcomes of the `git worktree add -b …` call and of
the retry without `-b`. -/
structure CreateEnv where
  createDirOk : Bool
  add : ProcOutcome
  addRetry : ProcOutcome
deriving Repr

/-- `create_worktree` from `worktree.rs`.  Returns the result, the new
filesystem state, and the subprocess calls made.  A successful
`git worktree add` materializes the worktree directory, so on the
success branches `worktreePath` is inserted into `dirs` (the external
effect of git that the idempotence claim depends on). -/
def create_worktree (st : FsState) (repo_path bead_id base_branch : String)
    (env : CreateEnv) : CreateResult × FsState × List Act :=
  if !st.dirs.contains repo_path then
    (.badRequest ("Repository path does not exist: " ++ repo_path), st, [])
  else
    let st := { st with gitignore := ensure_gitignore_entry st.gitignore }
    let branch_name := "bd-" ++ bead_id
    let wdir := worktreesDir repo_path
    let wpath := worktreePath repo_path bead_id
    if st.dirs.contains wpath then
      (.ok ⟨true, wpath, branch_name, true⟩, st, [])
    else if !env.createDirOk then
      (.serverError "Failed to create .worktrees directory", st, [])
    else
      let st := { st with dirs := wdir :: st.dirs }
      match env.add with
      | .exited true _ _ =>
        (.ok ⟨true, wpath, branch_name, false⟩,
         { st with dirs := wpath :: st.dirs }, [.gitWorktreeAdd])
      | .exited false _ stderr =>
        if strContains stderr "already exists" then
          match env.addRetry with
          | .exited true _ _ =>
            (.ok ⟨true, wpath, branch_name, true⟩,
             { st with dirs := wpath :: st.dirs },
             [.gitWorktreeAdd, .gitWorktreeAddRetry])
          | .exited false _ stderr2 =>
            (.serverError ("Failed to create worktree: " ++ stderr2), st,
             [.gitWorktreeAdd, .gitWorktreeAddRetry])
          | .err e =>
            (.serverError ("Failed to run git command: " ++ e), st,
             [.gitWorktreeAdd, .gitWorktreeAddRetry])
        else
          (.serverError ("Failed to create worktree: " ++ stderr), st,
           [.gitWorktreeAdd])
      | .err e =>
        (.serverError ("Failed to run git command: " ++ e), st,
         [.gitWorktreeAdd])

/-! ## `delete_worktree` -/

/-- Result of the `delete_worktree` handler (`DeleteWorktreeResponse`
carries only `success`). -/
inductive DeleteResult where
  | badRequest (msg : String)
  | serverError (msg : String)
  | ok (success : Bool)
deriving DecidableEq, Repr

/-- Environment for `delete_worktree`: outcomes of
`git worktree remove`, the forced retry, `git branch -D`, and
`bd close`. -/
structure DeleteEnv where
  remove : ProcOutcome
  removeForce : ProcOutcome
  branchDelete : ProcOutcome
  beadClose : ProcOutcome
deriving Repr

/-- `delete_worktree` from `worktree.rs`.  Returns the result, the new
filesystem state (a successful removal erases the worktree directory),
and the subprocess calls made.  Note the source returns the *first*
attempt's stderr even when the forced retry fails, and ignores the
outcomes of `git branch -D` and `bd close` (`let _ = …`). -/
def delete_worktree (st : FsState) (repo_path bead_id : String)
    (env : DeleteEnv) : DeleteResult × FsState × List Act :=
  if !st.dirs.contains repo_path then
    (.badRequest ("Repository path does not exist: " ++ repo_path), st, [])
  else
    let wpath := worktreePath repo_path bead_id
    if !st.dirs.contains wpath then
      (.ok true, st, [])
    else
      let removedSt := { st with dirs := st.dirs.erase wpath }
      match env.remove with
      | .exited true _ _ =>
        (.ok true, removedSt,
         [.gitWorktreeRemove, .gitBranchDelete, .bdClose])
      | .exited false _ stderr =>
        if strContains stderr "contains modified or untracked files" then
          match env.removeForce with
          | .exited true _ _ =>
            (.ok true, removedSt,
             [.gitWorktreeRemove, .gitWorktreeRemoveForce,
              .gitBranchDelete, .bdClose])
          | _ =>
            (.serverError ("Failed to remove worktree: " ++ stderr), st,
             [.gitWorktreeRemove, .gitWorktreeRemoveForce])
        else
          (.serverError ("Failed to remove worktree: " ++ stderr), st,
           [.gitWorktreeRemove])
      | .err e =>
        (.serverError ("Failed to run git command: " ++ e), st,
         [.gitWorktreeRemove])

/-! ## `create_pr` -/

/-- Parse of a decimal integer in the Rust `str::parse::<i32>` sense:
optional single leading `+`/`-`, at least one digit, all digits, value
within `i32` range. -/
def parse_i32 (s : String) : Option Int :=
  let core : Option Int :=
    if strStartsWith s "+" then ((s.drop 1).toNat?).map Int.ofNat
    else if strStartsWith s "-" then ((s.drop 1).toNat?).map (fun n => -(n : Int))
    else s.toNat?.map Int.ofNat
  match core with
  | some n => if -(2 ^ 31) ≤ n ∧ n ≤ 2 ^ 31 - 1 then some n else none
  | none => none

/-- `extract_pr_number_from_url` from `worktree.rs`:
`url.rsplit('/').next()` is the segment after the last `/` (the whole
string when there is no `/`), then `parse::<i32>().ok()`. -/
def extract_pr_number_from_url (url : String) : Option Int :=
  match (url.splitOn "/").getLast? with
  | some seg => parse_i32 seg
  | none => none

/-- One element of the parsed `gh pr list --json number,title` output:
`number` via `as_i64().unwrap_or(0)` and `title` via
`as_str().unwrap_or("Unknown")` are total in the source, so the parsed
record carries both fields. -/
structure PrRef where
  number : Int
  title : String
deriving DecidableEq, Repr

/-- The conflict message built in `create_pr` when a merged PR already
exists for the branch. -/
def mergedPrMessage (number : Int) (title : String) : String :=
  "A merged PR already exists for this branch: #" ++ toString number ++
    " \"" ++ title ++ "\". Clean up the worktree first."

/-- Result of the `create_pr` handler, tagged by HTTP status class
(`conflict` is the 409 branch; `ok` carries `pr_number`/`pr_url`). -/
inductive CreatePrResult where
  | badRequest (msg : String)
  | conflict (msg : String)
  | serverError (msg : String)
  | ok (pr_number : Option Int) (pr_url : String)
deriving DecidableEq, Repr

/-- Environment for `create_pr`: outcome of the merged-PR query
(`gh pr list`), the `serde_json::from_str::<Vec<Value>>` parse of its
stdout (abstracted as a function; `none` models a parse error), and the
outcome of `gh pr create`. -/
structure CreatePrEnv where
  check : ProcOutcome
  parsePrList : String → Option (List PrRef)
  create : ProcOutcome

/-- `create_pr` from `worktree.rs`.  The merged-PR guard fires only
when the query process exited successfully, its trimmed stdout is
non-empty and not `"[]"`, the JSON parses, and the array has a first
element; every other guard outcome falls through to `gh pr create`. -/
def create_pr (st : FsState) (repo_path bead_id title body : String)
    (env : CreatePrEnv) : CreatePrResult × List Act :=
  if !st.dirs.contains repo_path then
    (.badRequest ("Repository path does not exist: " ++ repo_path), [])
  else
    let conflictHit : Option PrRef :=
      match env.check with
      | .exited true stdout _ =>
        let trimmed := strTrim stdout
        if trimmed ≠ "" ∧ trimmed ≠ "[]" then
          match env.parsePrList trimmed with
          | some (pr :: _) => some pr
          | _ => none
        else none
      | _ => none
    match conflictHit with
    | some pr =>
      (.conflict (mergedPrMessage pr.number pr.title), [.ghPrList])
    | none =>
      match env.create with
      | .exited true stdout _ =>
        let pr_url := strTrim stdout
        (.ok (extract_pr_number_from_url pr_url) pr_url,
         [.ghPrList, .ghPrCreate])
      | .exited false _ stderr =>
        (.serverError stderr, [.ghPrList, .ghPrCreate])
      | .err e =>
        (.serverError ("Failed to run gh command: " ++ e),
         [.ghPrList, .ghPrCreate])

/-! ## `get_bead_status` (task status oracle) -/

/-- The `BeadStatus` deserialization target: `{id, status}`. -/
structure BeadStatus where
  id : String
  status : String
deriving DecidableEq, Repr

/-- The `.beads/issues.jsonl` file as the handler sees it: `none` when
`read_to_string` fails; otherwise the per-line `serde_json` parse
results (a `none` line is one that is empty after trimming or fails to
parse — both are skipped by the source loop). -/
abbrev IssuesFile := Option (List (Option BeadStatus))

/-- The line scan inside `get_bead_status`: first parsed record whose
`id` matches wins. -/
def findBeadStatus (bead_id : String) : List (Option BeadStatus) → Option String
  | [] => none
  | some bead :: rest =>
    if bead.id == bead_id then some bead.status
    else findBeadStatus bead_id rest
  | none :: rest => findBeadStatus bead_id rest

/-- `get_bead_status` from `worktree.rs`: `none` when the file is
unreadable or no record matches. -/
def get_bead_status (file : IssuesFile) (bead_id : String) : Option String :=
  match file with
  | none => none
  | some lines => findBeadStatus bead_id lines

/-! ## Sibling rebase batch (`rebase_siblings`, `rebase_single_worktree`) -/

/-- `WorktreeEntry` from `worktree.rs` (the parsed worktree listing). -/
structure WorktreeEntry where
  path : String
  branch : String
  bead_id : Option String
deriving DecidableEq, Repr

/-- `RebaseSiblingResult` from `worktree.rs`. -/
structure RebaseSiblingResult where
  bead_id : String
  success : Bool
  error : Option String
deriving DecidableEq, Repr

/-- `RebaseSiblingsResponse` from `worktree.rs`. -/
structure RebaseSiblingsResponse where
  results : List RebaseSiblingResult
  skipped : List String
deriving DecidableEq, Repr

/-- Per-sibling subprocess outcomes consumed by
`rebase_single_worktree`: the in-worktree `git fetch origin`,
`git rebase origin/main`, and
`git push origin bd-{id} --force-with-lease`. -/
structure SiblingEnv where
  fetch : ProcOutcome
  rebase : ProcOutcome
  push : ProcOutcome
deriving Repr

/-- `rebase_single_worktree` from `worktree.rs`.  Returns the
per-sibling result and the subprocess calls made inside that worktree
(`git rebase --abort` is issued — with its outcome ignored — exactly on
the ran-but-failed rebase branch). -/
def rebase_single_worktree (env : SiblingEnv) (worktree_path bead_id : String) :
    RebaseSiblingResult × List Act :=
  match env.fetch with
  | .err e =>
    (⟨bead_id, false, some ("Failed to fetch: " ++ e)⟩,
     [.gitFetchSibling worktree_path])
  | .exited _ _ _ =>
    match env.rebase with
    | .exited true _ _ =>
      match env.push with
      | .exited true _ _ =>
        (⟨bead_id, true, none⟩,
         [.gitFetchSibling worktree_path, .gitRebase worktree_path,
          .gitPush worktree_path])
      | .exited false _ stderr =>
        (⟨bead_id, false, some ("Push failed: " ++ stderr)⟩,
         [.gitFetchSibling worktree_path, .gitRebase worktree_path,
          .gitPush worktree_path])
      | .err e =>
        (⟨bead_id, false, some ("Push command failed: " ++ e)⟩,
         [.gitFetchSibling worktree_path, .gitRebase worktree_path,
          .gitPush worktree_path])
    | .exited false _ stderr =>
      (⟨bead_id, false, some ("Rebase conflict: " ++ stderr)⟩,
       [.gitFetchSibling worktree_path, .gitRebase worktree_path,
        .gitRebaseAbort worktree_path])
    | .err e =>
      (⟨bead_id, false, some ("Rebase command failed: " ++ e)⟩,
       [.gitFetchSibling worktree_path, .gitRebase worktree_path])

/-- The per-sibling loop of `rebase_siblings`, written as structural
recursion over the sibling list (the source's `for` loop accumulating
`results`, `skipped`, in order): an entry without a bead id is passed
over (`continue`); a status other than exactly `Some("inreview")`
appends the id to `skipped`; otherwise `rebase_single_worktree` runs
and its result is appended to `results`. -/
def rebaseLoop (issues : IssuesFile) (sib : String → SiblingEnv) :
    List WorktreeEntry → List RebaseSiblingResult × List String × List Act
  | [] => ([], [], [])
  | w :: rest =>
    match w.bead_id with
    | none => rebaseLoop issues sib rest
    | some id =>
      if get_bead_status issues id == some "inreview" then
        let (r, l) := rebase_single_worktree (sib w.path) w.path id
        let (rs, sk, lg) := rebaseLoop issues sib rest
        (r :: rs, sk, (Act.lookupStatus id :: l) ++ lg)
      else
        let (rs, sk, lg) := rebaseLoop issues sib rest
        (rs, id :: sk, Act.lookupStatus id :: lg)

/-- Result of the `rebase_siblings` handler, tagged by HTTP status
class. -/
inductive RebaseResult where
  | badRequest (msg : String)
  | serverError (msg : String)
  | ok (resp : RebaseSiblingsResponse)
deriving DecidableEq, Repr

/-- Environment for `rebase_siblings`: the `git worktree list
--porcelain` outcome, the worktree entries produced from its stdout by
`parse_worktree_list` (listing parse + directory scan, abstracted as a
supplied list), the root `git fetch origin` outcome, the issues file,
and the per-worktree-path sibling subprocess outcomes. -/
structure RebaseEnv where
  list : ProcOutcome
  parsed : List WorktreeEntry
  fetch : ProcOutcome
  issues : IssuesFile
  sibling : String → SiblingEnv

/-- The sibling filter of `rebase_siblings`: drop the excluded bead id
and every entry without a bead id (the primary worktree). -/
def siblingFilter (exclude : String) (w : WorktreeEntry) : Bool :=
  match w.bead_id with
  | some id => id != exclude
  | none => false

/-- `rebase_siblings` from `worktree.rs`.  Faithful to the source's
control flow: the root-fetch result is only pattern-matched with
`if let Err(e) = fetch_output` — a fetch that *ran and exited non-zero*
is not inspected and the loop proceeds. -/
def rebase_siblings (st : FsState) (repo_path exclude_bead_id : String)
    (env : RebaseEnv) : RebaseResult × List Act :=
  if !st.dirs.contains repo_path then
    (.badRequest ("Repository path does not exist: " ++ repo_path), [])
  else
    match env.list with
    | .err e =>
      (.serverError ("Failed to run git command: " ++ e), [.gitWorktreeList])
    | .exited false _ stderr =>
      (.serverError ("Failed to list worktrees: " ++ stderr), [.gitWorktreeList])
    | .exited true _ _ =>
      let siblings := env.parsed.filter (siblingFilter exclude_bead_id)
      match env.fetch with
      | .err e =>
        (.serverError ("Failed to fetch from origin: " ++ e),
         [.gitWorktreeList, .gitFetchRoot])
      | .exited _ _ _ =>
        let (results, skipped, lg) := rebaseLoop env.issues env.sibling siblings
        (.ok ⟨results, skipped⟩, [.gitWorktreeList, .gitFetchRoot] ++ lg)

/-! ## Derived predicates and spec-side definitions -/

/-- Whether the process ran and exited with a zero status
(`Ok(output) if output.status.success()` in Rust). -/
def ProcOutcome.isSuccess : ProcOutcome → Bool
  | .exited true _ _ => true
  | _ => false

/-- Classification bucket of one rollup entry. -/
inductive Bucket where
  | passed
  | failed
  | pending
deriving DecidableEq, Repr

/-- Per-entry classification, following the same status/conclusion
discrimination as `checkStep` (and as the spec sentence describing it):
`QUEUED`/`IN_PROGRESS` are pending; `COMPLETED` maps by conclusion with
`SUCCESS` passed, `FAILURE`/`CANCELLED`/`TIMED_OUT`/`ACTION_REQUIRED`
failed, anything else pending; any other status maps by conclusion
alone with `SUCCESS` passed, `FAILURE`/`ERROR` failed, else pending. -/
def classify (check : CheckEntry) : Bucket :=
  match check.status with
  | "QUEUED" | "IN_PROGRESS" => .pending
  | "COMPLETED" =>
    match check.conclusion with
    | "SUCCESS" => .passed
    | "FAILURE" | "CANCELLED" | "TIMED_OUT" | "ACTION_REQUIRED" => .failed
    | _ => .pending
  | _ =>
    match check.conclusion with
    | "SUCCESS" => .passed
    | "FAILURE" | "ERROR" => .failed
    | _ => .pending

/-- Modelled from the spec's words (refinement target for the checks
aggregation claim, to be compared with `parse_status_checks`): each
entry counts into `total` and into exactly one bucket via `classify`;
the aggregate status is `failure` if `failed > 0`, else `pending` if
`pending > 0`, else `success` — with no special case for the empty
list. -/
def checksSpec (l : List CheckEntry) : ChecksStatus :=
  let failed := l.countP (fun c => classify c = Bucket.failed)
  let pending := l.countP (fun c => classify c = Bucket.pending)
  ⟨l.length,
   l.countP (fun c => classify c = Bucket.passed),
   failed,
   pending,
   if failed > 0 then "failure"
   else if pending > 0 then "pending"
   else "success"⟩

/-- Whether the loop of `rebase_siblings` attempts a rebase for this
entry: it must carry a bead id whose current status is exactly
`inreview`. -/
def attemptedCheck (issues : IssuesFile) (w : WorktreeEntry) : Bool :=
  match w.bead_id with
  | some id => get_bead_status issues id == some "inreview"
  | none => false

/-- The skip-list contribution of one entry: its bead id exactly when
the entry carries one and its status is not `inreview`. -/
def skipId (issues : IssuesFile) (w : WorktreeEntry) : Option String :=
  match w.bead_id with
  | some id =>
    if get_bead_status issues id == some "inreview" then none else some id
  | none => none

/-- The per-sibling outcome recorded for an attempted entry — a
function of that sibling's own subprocess outcomes only. -/
def siblingOutcome (sib : String → SiblingEnv) (w : WorktreeEntry) :
    RebaseSiblingResult :=
  (rebase_single_worktree (sib w.path) w.path (w.bead_id.getD "")).1

/-- The action-log contribution of one entry in the loop: a status
lookup always; the rebase/push subprocess calls only when the entry is
attempted. -/
def siblingLog (issues : IssuesFile) (sib : String → SiblingEnv)
    (w : WorktreeEntry) : List Act :=
  match w.bead_id with
  | none => []
  | some id =>
    if get_bead_status issues id == some "inreview" then
      Act.lookupStatus id :: (rebase_single_worktree (sib w.path) w.path id).2
    else [Act.lookupStatus id]

/-! ## Concrete environments used by witnesses and counterexamples -/

/-- Sibling whose fetch, rebase and push all succeed. -/
def sibOk : SiblingEnv :=
  ⟨.exited true "" "", .exited true "" "", .exited true "" ""⟩

/-- Sibling whose rebase runs but exits non-zero (a conflict). -/
def sibConflict : SiblingEnv :=
  ⟨.exited true "" "", .exited false "" "merge conflict in src/app.rs",
   .exited true "" ""⟩

/-- Sibling whose rebase succeeds but whose push exits non-zero. -/
def sibPushFail : SiblingEnv :=
  ⟨.exited true "" "", .exited true "" "",
   .exited false "" "stale info; remote moved"⟩

/-- Issues file with statuses `[inreview, in_progress, inreview]` for
beads `A`, `B`, `C`. -/
def threeSiblingIssues : IssuesFile :=
  some [some ⟨"A", "inreview"⟩, some ⟨"B", "in_progress"⟩,
        some ⟨"C", "inreview"⟩]

/-- Batch environment with three siblings `A`, `B`, `C` (statuses
`inreview`, `in_progress`, `inreview`), successful listing and root
fetch; `A`'s rebase conflicts while `C` succeeds. -/
def threeSiblingEnv : RebaseEnv where
  list := .exited true "" ""
  parsed := [⟨"/r/.worktrees/bd-A", "bd-A", some "A"⟩,
             ⟨"/r/.worktrees/bd-B", "bd-B", some "B"⟩,
             ⟨"/r/.worktrees/bd-C", "bd-C", some "C"⟩]
  fetch := .exited true "" ""
  issues := threeSiblingIssues
  sibling := fun p => if p = "/r/.worktrees/bd-A" then sibConflict else sibOk

/-- Batch environment whose single root fetch ran but exited non-zero,
with one `inreview` sibling `A` whose own subprocesses all succeed. -/
def rootFetchFailedEnv : RebaseEnv where
  list := .exited true "" ""
  parsed := [⟨"/r/.worktrees/bd-A", "bd-A", some "A"⟩]
  fetch := .exited false "" "fatal: could not read from remote repository"
  issues := some [some ⟨"A", "inreview"⟩]
  sibling := fun _ => sibOk

/-- Batch environment whose single root fetch could not even be
spawned (`Err` from the process API), with one `inreview` sibling. -/
def rootFetchSpawnErrEnv : RebaseEnv where
  list := .exited true "" ""
  parsed := [⟨"/r/.worktrees/bd-A", "bd-A", some "A"⟩]
  fetch := .err "No such file or directory (os error 2)"
  issues := some [some ⟨"A", "inreview"⟩]
  sibling := fun _ => sibOk

/-! ## Lemmas -/

/-- One counter step classifies its entry into `total` plus exactly the
bucket chosen by `classify`. -/
theorem checkStep_eq (t p f pd : Nat) (c : CheckEntry) :
    checkStep (t, p, f, pd) c =
      (t + 1,
       p + (if classify c = .passed then 1 else 0),
       f + (if classify c = .failed then 1 else 0),
       pd + (if classify c = .pending then 1 else 0)) := by
  obtain ⟨s, conc⟩ := c
  simp only [checkStep, classify]
  split <;> (try split) <;> simp_all

/-- Closed form of the counter fold of `parse_status_checks`. -/
theorem foldl_checkStep (l : List CheckEntry) (t p f pd : Nat) :
    l.foldl checkStep (t, p, f, pd) =
      (t + l.length,
       p + l.countP (fun c => classify c = Bucket.passed),
       f + l.countP (fun c => classify c = Bucket.failed),
       pd + l.countP (fun c => classify c = Bucket.pending)) := by
  induction l generalizing t p f pd with
  | nil => simp
  | cons c rest ih =>
    rw [List.foldl_cons, checkStep_eq, ih]
    simp only [List.length_cons, List.countP_cons, Prod.mk.injEq]
    refine ⟨by omega, ?_, ?_, ?_⟩ <;> split_ifs <;> simp_all <;> omega

/-- Evaluated form of `parse_status_checks`. -/
theorem parse_status_checks_eval (l : List CheckEntry) :
    parse_status_checks l =
      ⟨l.length,
       l.countP (fun c => classify c = Bucket.passed),
       l.countP (fun c => classify c = Bucket.failed),
       l.countP (fun c => classify c = Bucket.pending),
       if l.length == 0 then "success"
       else if l.countP (fun c => classify c = Bucket.failed) > 0 then "failure"
       else if l.countP (fun c => classify c = Bucket.pending) > 0 then "pending"
       else "success"⟩ := by
  unfold parse_status_checks
  rw [foldl_checkStep]
  simp

/-- `trimLeadingAux` with enough fuel leaves a remainder the pattern is
not a prefix of. -/
theorem trimLeadingAux_not_prefixOf (pat : List Char) (hpat : pat ≠ []) :
    ∀ fuel s, s.length ≤ fuel →
      pat.isPrefixOf (trimLeadingAux pat fuel s) = false := by
  intro fuel
  induction fuel with
  | zero =>
    intro s hs
    have hnil : s = [] := by
      cases s with
      | nil => rfl
      | cons a as => simp at hs
    subst hnil
    cases pat with
    | nil => exact absurd rfl hpat
    | cons p ps => rfl
  | succ n ih =>
    intro s hs
    by_cases hcond : (!pat.isEmpty && pat.isPrefixOf s) = true
    · rw [trimLeadingAux, if_pos hcond]
      apply ih
      have hpre : pat <+: s := by
        have hand := (Bool.and_eq_true _ _).mp hcond
        exact List.isPrefixOf_iff_prefix.mp hand.2
      have hlen : pat.length ≤ s.length := hpre.length_le
      have hpos : 0 < pat.length := by
        cases pat with
        | nil => exact absurd rfl hpat
        | cons p ps => simp
      rw [List.length_drop]
      omega
    · rw [trimLeadingAux, if_neg hcond]
      have hne : pat.isEmpty = false := by
        cases pat with
        | nil => exact absurd rfl hpat
        | cons p ps => rfl
      simp only [hne, Bool.not_false, Bool.true_and] at hcond
      exact Bool.not_eq_true _ ▸ Bool.eq_false_iff.mpr hcond

/-- `trimLeading` leaves a remainder the pattern is not a prefix of. -/
theorem trimLeading_not_prefixOf (pat s : List Char) (hpat : pat ≠ []) :
    pat.isPrefixOf (trimLeading pat s) = false :=
  trimLeadingAux_not_prefixOf pat hpat s.length s (Nat.le_refl _)

/-- Closed form of the per-sibling loop: the result list is the image
of the `inreview`-filtered siblings under their own per-sibling
outcome, the skip list collects exactly the other bead ids, and the
action log is the concatenation of per-sibling logs. -/
theorem rebaseLoop_spec (issues : IssuesFile) (sib : String → SiblingEnv)
    (l : List WorktreeEntry) :
    rebaseLoop issues sib l =
      ((l.filter (attemptedCheck issues)).map (siblingOutcome sib),
       l.filterMap (skipId issues),
       (l.map (siblingLog issues sib)).flatten) := by
  induction l with
  | nil => rfl
  | cons w rest ih =>
    cases hw : w.bead_id with
    | none =>
      simp [rebaseLoop, hw, attemptedCheck, skipId, siblingLog, ih]
    | some id =>
      by_cases hst : get_bead_status issues id == some "inreview"
      · simp [rebaseLoop, hw, attemptedCheck, skipId, siblingLog,
              siblingOutcome, ih, hst]
      · simp [rebaseLoop, hw, attemptedCheck, skipId, siblingLog, ih,
              Bool.eq_false_iff.mpr hst]

/-! ## Claim theorems -/

/-- Claim C6: the checks aggregation counts every rollup entry into
`total`, classifies it per the status/conclusion mapping described in
the spec (`checksSpec`), and derives the aggregate status by the
precedence failure > pending > success, with the empty list yielding
`success`; in particular the concrete vector
`[(COMPLETED,SUCCESS), (QUEUED,""), (COMPLETED,FAILURE)]` yields
`{total 3, passed 1, pending 1, failed 1, status failure}`. -/
theorem parse_status_checks_spec_agreement :
    (∀ l, parse_status_checks l = checksSpec l) ∧
    parse_status_checks
        [⟨"COMPLETED", "SUCCESS"⟩, ⟨"QUEUED", ""⟩, ⟨"COMPLETED", "FAILURE"⟩]
      = ⟨3, 1, 1, 1, "failure"⟩ ∧
    parse_status_checks [] = ⟨0, 0, 0, 0, "success"⟩ := by
  refine ⟨?_, by decide, by decide⟩
  intro l
  rw [parse_status_checks_eval]
  unfold checksSpec
  by_cases h : l = []
  · subst h; simp
  · have hlen : l.length ≠ 0 := by simpa [List.length_eq_zero] using h
    have hbeq : (l.length == 0) = false := by simpa using hlen
    rw [hbeq]
    simp

/-- Claim C9: for every checks rollup list the aggregation is a
partition — `total = passed + failed + pending`. -/
theorem parse_status_checks_total_partition (l : List CheckEntry) :
    (parse_status_checks l).total =
      (parse_status_checks l).passed + (parse_status_checks l).failed +
        (parse_status_checks l).pending := by
  rw [parse_status_checks_eval]
  show l.length =
    l.countP (fun c => classify c = Bucket.passed)
      + l.countP (fun c => classify c = Bucket.failed)
      + l.countP (fun c => classify c = Bucket.pending)
  induction l with
  | nil => simp
  | cons c rest ih =>
    simp only [List.length_cons, List.countP_cons]
    cases h : classify c <;> simp [h] <;> omega

/-- Claim C10: `extract_bead_id` strips every leading repetition of
`bd-`: `bd-bd-001` yields `some "001"` (not `some "bd-001"`), `bd-`
yields `some ""` (not `none`), and in general a returned id never
starts with `bd-`. -/
theorem extract_bead_id_strips_repeated :
    extract_bead_id "bd-bd-001" = some "001" ∧
    extract_bead_id "bd-" = some "" ∧
    ∀ b r, extract_bead_id b = some r → strStartsWith r "bd-" = false := by
  refine ⟨by decide, by decide, ?_⟩
  intro b r h
  unfold extract_bead_id at h
  split at h
  · have hr : r = String.mk (trimLeading "bd-".toList b.toList) :=
      (Option.some.injEq _ _ ▸ h).symm
    subst hr
    show ("bd-".toList).isPrefixOf (trimLeading "bd-".toList b.toList) = false
    exact trimLeading_not_prefixOf _ _ (by decide)
  · exact absurd h (by simp)

/-- Witness for C10: the general no-`bd-`-prefix property applied to
the concrete branch `bd-bd-001`. -/
theorem extract_bead_id_strips_repeated_witness :
    extract_bead_id "bd-bd-001" = some "001" ∧
    strStartsWith "001" "bd-" = false :=
  ⟨extract_bead_id_strips_repeated.1,
   extract_bead_id_strips_repeated.2.2 "bd-bd-001" "001"
     extract_bead_id_strips_repeated.1⟩

/-- Claim C1 (amended): the batch aborts before any sibling is touched
only when the root fetch could not be *spawned* (`Err` from the process
API): in that case the handler returns an error and the action log
shows no status lookup, rebase, or push.  (A root fetch that ran but
exited non-zero is not inspected by the source and does not abort the
batch — see the counterexample.) -/
theorem rebase_siblings_fetch_spawn_error_aborts (st : FsState)
    (repo_path exclude e : String) (env : RebaseEnv)
    (hrepo : st.dirs.contains repo_path = true)
    (hlist : env.list.isSuccess = true)
    (hfetch : env.fetch = ProcOutcome.err e) :
    rebase_siblings st repo_path exclude env =
      (.serverError ("Failed to fetch from origin: " ++ e),
       [Act.gitWorktreeList, Act.gitFetchRoot]) := by
  obtain ⟨lout, lerr, hl⟩ : ∃ out err, env.list = ProcOutcome.exited true out err := by
    cases h : env.list with
    | err m => rw [h] at hlist; simp [ProcOutcome.isSuccess] at hlist
    | exited s out err =>
      cases s with
      | false => rw [h] at hlist; simp [ProcOutcome.isSuccess] at hlist
      | true => exact ⟨out, err, rfl⟩
  have hmem : repo_path ∈ st.dirs := by simpa using hrepo
  simp [rebase_siblings, hmem, hl, hfetch]

/-- Witness for the amended C1: a concrete batch whose root fetch
spawn fails is aborted with the fetch error and no sibling action. -/
theorem rebase_siblings_fetch_spawn_error_aborts_witness :
    rebase_siblings ⟨["/r"], ""⟩ "/r" "X" rootFetchSpawnErrEnv =
      (.serverError
        "Failed to fetch from origin: No such file or directory (os error 2)",
       [Act.gitWorktreeList, Act.gitFetchRoot]) :=
  rebase_siblings_fetch_spawn_error_aborts _ _ _ _ _ (by decide) (by decide) rfl

/-- Counterexample to C1 as stated: a root fetch that ran and exited
non-zero (a failed fetch in the spec's own sense of "non-zero exit")
does not abort the batch — the handler proceeds, looks up the sibling's
status, rebases and pushes it, and returns a success response. -/
theorem rebase_siblings_nonzero_fetch_proceeds :
    rootFetchFailedEnv.fetch.isSuccess = false ∧
    rebase_siblings ⟨["/r"], ""⟩ "/r" "X" rootFetchFailedEnv =
      (.ok ⟨[⟨"A", true, none⟩], []⟩,
       [Act.gitWorktreeList, Act.gitFetchRoot, Act.lookupStatus "A",
        Act.gitFetchSibling "/r/.worktrees/bd-A",
        Act.gitRebase "/r/.worktrees/bd-A",
        Act.gitPush "/r/.worktrees/bd-A"]) := by
  decide

/-- Claim C2: with a valid repository, a successful listing and a
spawnable root fetch, the handler attempts a rebase for exactly the
siblings whose current status is exactly `inreview`; every other
sibling (including status unknown: missing record or unreadable file)
contributes its id to the skip list, and its only logged action is the
status lookup — no rebase or push subprocess. -/
theorem rebase_siblings_inreview_only (st : FsState)
    (repo_path exclude : String) (env : RebaseEnv)
    (hrepo : st.dirs.contains repo_path = true)
    (hlist : env.list.isSuccess = true)
    (hfetch : env.fetch.isErr = false) :
    rebase_siblings st repo_path exclude env =
      (.ok ⟨((env.parsed.filter (siblingFilter exclude)).filter
                (attemptedCheck env.issues)).map (siblingOutcome env.sibling),
            (env.parsed.filter (siblingFilter exclude)).filterMap
                (skipId env.issues)⟩,
       [Act.gitWorktreeList, Act.gitFetchRoot] ++
         ((env.parsed.filter (siblingFilter exclude)).map
             (siblingLog env.issues env.sibling)).flatten) := by
  obtain ⟨lout, lerr, hl⟩ : ∃ out err, env.list = ProcOutcome.exited true out err := by
    cases h : env.list with
    | err m => rw [h] at hlist; simp [ProcOutcome.isSuccess] at hlist
    | exited s out err =>
      cases s with
      | false => rw [h] at hlist; simp [ProcOutcome.isSuccess] at hlist
      | true => exact ⟨out, err, rfl⟩
  obtain ⟨fs, fout, ferr, hf⟩ :
      ∃ s out err, env.fetch = ProcOutcome.exited s out err := by
    cases h : env.fetch with
    | err m => rw [h] at hfetch; simp [ProcOutcome.isErr] at hfetch
    | exited s out err => exact ⟨s, out, err, rfl⟩
  have hmem : repo_path ∈ st.dirs := by simpa using hrepo
  simp [rebase_siblings, hmem, hl, hf, rebaseLoop_spec]

/-- Witness for C2: three siblings with statuses
`[inreview, in_progress, inreview]` — exactly the two `inreview`
siblings are attempted (each with its own outcome: `A` conflicts, `C`
succeeds) and `B` is skipped with only a status lookup logged. -/
theorem rebase_siblings_inreview_only_witness :
    rebase_siblings ⟨["/r"], ""⟩ "/r" "X" threeSiblingEnv =
      (.ok ⟨[⟨"A", false, some "Rebase conflict: merge conflict in src/app.rs"⟩,
             ⟨"C", true, none⟩],
            ["B"]⟩,
       [Act.gitWorktreeList, Act.gitFetchRoot,
        Act.lookupStatus "A", Act.gitFetchSibling "/r/.worktrees/bd-A",
        Act.gitRebase "/r/.worktrees/bd-A",
        Act.gitRebaseAbort "/r/.worktrees/bd-A",
        Act.lookupStatus "B",
        Act.lookupStatus "C", Act.gitFetchSibling "/r/.worktrees/bd-C",
        Act.gitRebase "/r/.worktrees/bd-C",
        Act.gitPush "/r/.worktrees/bd-C"]) :=
  (rebase_siblings_inreview_only ⟨["/r"], ""⟩ "/r" "X" threeSiblingEnv
    (by decide) (by decide) (by decide)).trans (by decide)

/-- Claim C3: per-sibling failure isolation.  A rebase that ran and
exited non-zero yields a failure result carrying the conflict message
and triggers `git rebase --abort`; a push that ran and exited non-zero
yields a failure result carrying the push stderr; and the loop records
exactly one outcome per attempted sibling, each a function of that
sibling's own subprocess outcomes alone, so no sibling's failure
prevents or alters any other sibling's processing. -/
theorem rebase_sibling_failure_isolation :
    (∀ env wpath id rout rerr, (SiblingEnv.fetch env).isErr = false →
       SiblingEnv.rebase env = ProcOutcome.exited false rout rerr →
       rebase_single_worktree env wpath id =
         (⟨id, false, some ("Rebase conflict: " ++ rerr)⟩,
          [Act.gitFetchSibling wpath, Act.gitRebase wpath,
           Act.gitRebaseAbort wpath])) ∧
    (∀ env wpath id pout perr, (SiblingEnv.fetch env).isErr = false →
       (SiblingEnv.rebase env).isSuccess = true →
       SiblingEnv.push env = ProcOutcome.exited false pout perr →
       rebase_single_worktree env wpath id =
         (⟨id, false, some ("Push failed: " ++ perr)⟩,
          [Act.gitFetchSibling wpath, Act.gitRebase wpath,
           Act.gitPush wpath])) ∧
    (∀ issues sib l,
       (rebaseLoop issues sib l).1 =
         (l.filter (attemptedCheck issues)).map (siblingOutcome sib)) := by
  refine ⟨?_, ?_, ?_⟩
  · intro env wpath id rout rerr hfetch hrebase
    obtain ⟨fsu, fout, ferr, hf⟩ :
        ∃ s out err, env.fetch = ProcOutcome.exited s out err := by
      cases h : env.fetch with
      | err m => rw [h] at hfetch; simp [ProcOutcome.isErr] at hfetch
      | exited s out err => exact ⟨s, out, err, rfl⟩
    simp [rebase_single_worktree, hf, hrebase]
  · intro env wpath id pout perr hfetch hrebase hpush
    obtain ⟨fsu, fout, ferr, hf⟩ :
        ∃ s out err, env.fetch = ProcOutcome.exited s out err := by
      cases h : env.fetch with
      | err m => rw [h] at hfetch; simp [ProcOutcome.isErr] at hfetch
      | exited s out err => exact ⟨s, out, err, rfl⟩
    obtain ⟨rout, rerr, hr⟩ :
        ∃ out err, env.rebase = ProcOutcome.exited true out err := by
      cases h : env.rebase with
      | err m => rw [h] at hrebase; simp [ProcOutcome.isSuccess] at hrebase
      | exited s out err =>
        cases s with
        | false => rw [h] at hrebase; simp [ProcOutcome.isSuccess] at hrebase
        | true => exact ⟨out, err, rfl⟩
    simp [rebase_single_worktree, hf, hr, hpush]
  · intro issues sib l
    rw [rebaseLoop_spec]

/-- Witness for C3: sibling `A`'s rebase conflicts (aborted, recorded
with the conflict message), a push failure is recorded with the push
stderr, and in a batch where `A` conflicts while `C` succeeds both
outcomes are present and independent. -/
theorem rebase_sibling_failure_isolation_witness :
    rebase_single_worktree sibConflict "/r/.worktrees/bd-A" "A" =
      (⟨"A", false, some "Rebase conflict: merge conflict in src/app.rs"⟩,
       [Act.gitFetchSibling "/r/.worktrees/bd-A",
        Act.gitRebase "/r/.worktrees/bd-A",
        Act.gitRebaseAbort "/r/.worktrees/bd-A"]) ∧
    rebase_single_worktree sibPushFail "/r/.worktrees/bd-B" "B" =
      (⟨"B", false, some "Push failed: stale info; remote moved"⟩,
       [Act.gitFetchSibling "/r/.worktrees/bd-B",
        Act.gitRebase "/r/.worktrees/bd-B",
        Act.gitPush "/r/.worktrees/bd-B"]) ∧
    (rebaseLoop threeSiblingIssues threeSiblingEnv.sibling
        threeSiblingEnv.parsed).1 =
      [⟨"A", false, some "Rebase conflict: merge conflict in src/app.rs"⟩,
       ⟨"C", true, none⟩] :=
  ⟨rebase_sibling_failure_isolation.1 sibConflict _ _ _ _ (by decide) rfl,
   rebase_sibling_failure_isolation.2.1 sibPushFail _ _ _ _ (by decide)
     (by decide) rfl,
   (rebase_sibling_failure_isolation.2.2 threeSiblingIssues
     threeSiblingEnv.sibling threeSiblingEnv.parsed).trans (by decide)⟩

/-- Claim C4: `create` is idempotent.  With a valid repository path,
the worktree path absent, and a first `git worktree add` that succeeds,
the first call returns `already_existed = false` and the second call on
the resulting state returns `already_existed = true` — both with the
identical path `repo_root/.worktrees/bd-{task_id}` — and the second
call (path already present) invokes no subprocess. -/
theorem create_worktree_idempotent (st : FsState)
    (repo_path bead_id base₁ base₂ : String) (env₁ env₂ : CreateEnv)
    (hrepo : st.dirs.contains repo_path = true)
    (habsent : st.dirs.contains (worktreePath repo_path bead_id) = false)
    (hdir : env₁.createDirOk = true)
    (hadd : env₁.add.isSuccess = true) :
    (create_worktree st repo_path bead_id base₁ env₁).1 =
      .ok ⟨true, worktreePath repo_path bead_id, "bd-" ++ bead_id, false⟩ ∧
    (create_worktree (create_worktree st repo_path bead_id base₁ env₁).2.1
        repo_path bead_id base₂ env₂).1 =
      .ok ⟨true, worktreePath repo_path bead_id, "bd-" ++ bead_id, true⟩ ∧
    (create_worktree (create_worktree st repo_path bead_id base₁ env₁).2.1
        repo_path bead_id base₂ env₂).2.2 = [] := by
  obtain ⟨aout, aerr, ha⟩ :
      ∃ out err, env₁.add = ProcOutcome.exited true out err := by
    cases h : env₁.add with
    | err m => rw [h] at hadd; simp [ProcOutcome.isSuccess] at hadd
    | exited s out err =>
      cases s with
      | false => rw [h] at hadd; simp [ProcOutcome.isSuccess] at hadd
      | true => exact ⟨out, err, rfl⟩
  have hmem : repo_path ∈ st.dirs := by simpa using hrepo
  have hnmem : worktreePath repo_path bead_id ∉ st.dirs := by
    simpa using habsent
  have h₁ : create_worktree st repo_path bead_id base₁ env₁ =
      (.ok ⟨true, worktreePath repo_path bead_id, "bd-" ++ bead_id, false⟩,
       { st with
          gitignore := ensure_gitignore_entry st.gitignore
          dirs := worktreePath repo_path bead_id ::
            worktreesDir repo_path :: st.dirs },
       [Act.gitWorktreeAdd]) := by
    simp [create_worktree, hmem, hnmem, hdir, ha]
  rw [h₁]
  refine ⟨rfl, ?_, ?_⟩ <;> simp [create_worktree, hmem]

/-- Witness for C4: a concrete fresh repository, a successful first
`git worktree add`, and an arbitrary second environment. -/
theorem create_worktree_idempotent_witness :
    (create_worktree ⟨["/r"], ""⟩ "/r" "T" "main"
        ⟨true, .exited true "" "", .exited true "" ""⟩).1 =
      .ok ⟨true, worktreePath "/r" "T", "bd-T", false⟩ ∧
    (create_worktree
        (create_worktree ⟨["/r"], ""⟩ "/r" "T" "main"
          ⟨true, .exited true "" "", .exited true "" ""⟩).2.1
        "/r" "T" "main" ⟨true, .err "spawn failed", .err "spawn failed"⟩).1 =
      .ok ⟨true, worktreePath "/r" "T", "bd-T", true⟩ ∧
    (create_worktree
        (create_worktree ⟨["/r"], ""⟩ "/r" "T" "main"
          ⟨true, .exited true "" "", .exited true "" ""⟩).2.1
        "/r" "T" "main" ⟨true, .err "spawn failed", .err "spawn failed"⟩).2.2 =
      [] :=
  create_worktree_idempotent ⟨["/r"], ""⟩ "/r" "T" "main" "main"
    ⟨true, .exited true "" "", .exited true "" ""⟩
    ⟨true, .err "spawn failed", .err "spawn failed"⟩
    (by decide) (by decide) (by decide) (by decide)

/-- Claim C5: deleting an absent workspace (valid repository) returns
`success = true` with no subprocess; and after a successful worktree
removal — direct or via the forced retry — the handler returns
`success = true` for *every* outcome of the branch-deletion and
task-close subprocesses (both are fired and forgotten). -/
theorem delete_worktree_absent_and_best_effort :
    (∀ (st : FsState) (repo_path bead_id : String) (env : DeleteEnv),
       st.dirs.contains repo_path = true →
       st.dirs.contains (worktreePath repo_path bead_id) = false →
       delete_worktree st repo_path bead_id env = (.ok true, st, [])) ∧
    (∀ (st : FsState) (repo_path bead_id : String) (env : DeleteEnv),
       st.dirs.contains repo_path = true →
       st.dirs.contains (worktreePath repo_path bead_id) = true →
       (DeleteEnv.remove env).isSuccess = true →
       (delete_worktree st repo_path bead_id env).1 = .ok true) ∧
    (∀ (st : FsState) (repo_path bead_id : String) (env : DeleteEnv)
       (rout rerr : String),
       st.dirs.contains repo_path = true →
       st.dirs.contains (worktreePath repo_path bead_id) = true →
       DeleteEnv.remove env = ProcOutcome.exited false rout rerr →
       strContains rerr "contains modified or untracked files" = true →
       (DeleteEnv.removeForce env).isSuccess = true →
       (delete_worktree st repo_path bead_id env).1 = .ok true) := by
  refine ⟨?_, ?_, ?_⟩
  · intro st repo_path bead_id env hrepo habsent
    have hmem : repo_path ∈ st.dirs := by simpa using hrepo
    have hnmem : worktreePath repo_path bead_id ∉ st.dirs := by
      simpa using habsent
    simp [delete_worktree, hmem, hnmem]
  · intro st repo_path bead_id env hrepo hexists hrm
    obtain ⟨rout, rerr, hr⟩ :
        ∃ out err, env.remove = ProcOutcome.exited true out err := by
      cases h : env.remove with
      | err m => rw [h] at hrm; simp [ProcOutcome.isSuccess] at hrm
      | exited s out err =>
        cases s with
        | false => rw [h] at hrm; simp [ProcOutcome.isSuccess] at hrm
        | true => exact ⟨out, err, rfl⟩
    have hmem : repo_path ∈ st.dirs := by simpa using hrepo
    have hwmem : worktreePath repo_path bead_id ∈ st.dirs := by
      simpa using hexists
    simp [delete_worktree, hmem, hwmem, hr]
  · intro st repo_path bead_id env rout rerr hrepo hexists hr hpat hforce
    obtain ⟨fout, ferr, hf⟩ :
        ∃ out err, env.removeForce = ProcOutcome.exited true out err := by
      cases h : env.removeForce with
      | err m => rw [h] at hforce; simp [ProcOutcome.isSuccess] at hforce
      | exited s out err =>
        cases s with
        | false => rw [h] at hforce; simp [ProcOutcome.isSuccess] at hforce
        | true => exact ⟨out, err, rfl⟩
    have hmem : repo_path ∈ st.dirs := by simpa using hrepo
    have hwmem : worktreePath repo_path bead_id ∈ st.dirs := by
      simpa using hexists
    simp [delete_worktree, hmem, hwmem, hr, hpat, hf]

/-- Witness for C5: a concrete absent-workspace deletion (trivial
success, empty action log), a successful removal followed by *failing*
branch-delete and task-close subprocesses (still `success = true`), and
the forced-retry path with the same failing cleanup calls. -/
theorem delete_worktree_absent_and_best_effort_witness :
    delete_worktree ⟨["/r"], ""⟩ "/r" "T"
        ⟨.exited true "" "", .exited true "" "",
         .exited false "" "no such branch", .exited false "" "no bead"⟩ =
      (.ok true, ⟨["/r"], ""⟩, []) ∧
    (delete_worktree ⟨["/r", "/r/.worktrees/bd-T"], ""⟩ "/r" "T"
        ⟨.exited true "" "", .exited true "" "",
         .exited false "" "no such branch", .exited false "" "no bead"⟩).1 =
      .ok true ∧
    (delete_worktree ⟨["/r", "/r/.worktrees/bd-T"], ""⟩ "/r" "T"
        ⟨.exited false ""
           "fatal: '/r/.worktrees/bd-T' contains modified or untracked files, use --force to delete it",
         .exited true "" "",
         .exited false "" "no such branch", .exited false "" "no bead"⟩).1 =
      .ok true :=
  ⟨delete_worktree_absent_and_best_effort.1 ⟨["/r"], ""⟩ "/r" "T" _
     (by decide) (by decide),
   delete_worktree_absent_and_best_effort.2.1 ⟨["/r", "/r/.worktrees/bd-T"], ""⟩
     "/r" "T" _ (by decide) (by decide) (by decide),
   delete_worktree_absent_and_best_effort.2.2 ⟨["/r", "/r/.worktrees/bd-T"], ""⟩
     "/r" "T" _ ""
     "fatal: '/r/.worktrees/bd-T' contains modified or untracked files, use --force to delete it"
     (by decide) (by decide) rfl (by decide) (by decide)⟩

/-- Claim C7: whenever the merged-PR query process exits successfully
and reports at least one merged PR (non-empty, non-`[]` trimmed stdout
that parses to a non-empty array), `create_pr` returns the
conflict-class error built from that PR's number and title, and the
`gh pr create` subprocess is never invoked (the action log is exactly
the list query). -/
theorem create_pr_merged_guard (st : FsState)
    (repo_path bead_id title body : String) (env : CreatePrEnv)
    (pr : PrRef) (rest : List PrRef) (out err : String)
    (hrepo : st.dirs.contains repo_path = true)
    (hcheck : CreatePrEnv.check env = ProcOutcome.exited true out err)
    (hne : strTrim out ≠ "")
    (hnb : strTrim out ≠ "[]")
    (hparse : CreatePrEnv.parsePrList env (strTrim out) = some (pr :: rest)) :
    create_pr st repo_path bead_id title body env =
      (.conflict (mergedPrMessage pr.number pr.title), [Act.ghPrList]) := by
  have hmem : repo_path ∈ st.dirs := by simpa using hrepo
  simp [create_pr, hmem, hcheck, hne, hnb, hparse]

/-- Witness for C7: a concrete environment whose merged-PR query
reports PR #142 "Fix badge"; the handler returns the 409 conflict
naming it and never reaches `gh pr create`. -/
theorem create_pr_merged_guard_witness :
    create_pr ⟨["/r"], ""⟩ "/r" "T" "Title" "Body"
      ⟨.exited true "merged-pr-list" "",
       fun s => if s = "merged-pr-list" then some [⟨142, "Fix badge"⟩] else none,
       .exited true "" ""⟩ =
      (.conflict (mergedPrMessage 142 "Fix badge"), [Act.ghPrList]) :=
  create_pr_merged_guard ⟨["/r"], ""⟩ "/r" "T" "Title" "Body" _
    ⟨142, "Fix badge"⟩ [] "merged-pr-list" ""
    (by decide) rfl (by decide) (by decide) (by decide)

/-- Claim C8 (amended): a `create` call on an already-existing path
returns immediately with `already_existed = true` and invokes no
subprocess, but the best-effort `.gitignore` ensuring runs
*unconditionally before* the existence check (lines 180–182 precede the
check at line 189 of the source), so such a call can still modify the
repository's ignore file: the resulting state carries
`ensure_gitignore_entry` applied to the previous content. -/
theorem create_worktree_existing_path_behavior (st : FsState)
    (repo_path bead_id base : String) (env : CreateEnv)
    (hrepo : st.dirs.contains repo_path = true)
    (hexists : st.dirs.contains (worktreePath repo_path bead_id) = true) :
    create_worktree st repo_path bead_id base env =
      (.ok ⟨true, worktreePath repo_path bead_id, "bd-" ++ bead_id, true⟩,
       { st with gitignore := ensure_gitignore_entry st.gitignore }, []) := by
  have hmem : repo_path ∈ st.dirs := by simpa using hrepo
  have hwmem : worktreePath repo_path bead_id ∈ st.dirs := by
    simpa using hexists
  simp [create_worktree, hmem, hwmem]

/-- Witness for the amended C8: concrete already-existing path — the
call succeeds idempotently with no subprocess and the `.gitignore`
content is passed through `ensure_gitignore_entry`. -/
theorem create_worktree_existing_path_behavior_witness :
    create_worktree ⟨["/r", "/r/.worktrees/bd-T"], ""⟩ "/r" "T" "main"
        ⟨true, .exited true "" "", .exited true "" ""⟩ =
      (.ok ⟨true, worktreePath "/r" "T", "bd-T", true⟩,
       ⟨["/r", "/r/.worktrees/bd-T"], ensure_gitignore_entry ""⟩, []) :=
  create_worktree_existing_path_behavior ⟨["/r", "/r/.worktrees/bd-T"], ""⟩
    "/r" "T" "main" ⟨true, .exited true "" "", .exited true "" ""⟩
    (by decide) (by decide)

/-- Counterexample to C8 as stated: with an empty `.gitignore` and an
already-existing worktree path, the create call returns
`already_existed = true` yet the ignore file does *not* stay unmodified
— the handler appends the `.worktrees/` entry before the existence
check. -/
theorem create_worktree_gitignore_touched_counterexample :
    (create_worktree ⟨["/r", "/r/.worktrees/bd-T"], ""⟩ "/r" "T" "main"
        ⟨true, .exited true "" "", .exited true "" ""⟩).1 =
      .ok ⟨true, "/r/.worktrees/bd-T", "bd-T", true⟩ ∧
    (create_worktree ⟨["/r", "/r/.worktrees/bd-T"], ""⟩ "/r" "T" "main"
        ⟨true, .exited true "" "", .exited true "" ""⟩).2.1.gitignore ≠
      ("" : String) := by
  decide

end BeadsKanban
